import Mathlib

/-!
Verification of the fixture-listener (`new_match_listener.py`) of the
IEOR4526 League Power Ranking repository.

The development shallowly embeds the listener's data model and control flow:

* `PyVal` models the scalar values that can sit in a pandas `DataFrame` cell
  after `pd.read_csv` (strings, ints, floats, booleans, NaN).
* `JVal` models parsed JSON payloads returned by the external fetch boundary.
* The pure helpers (`normalize_flag_series`, `extract_event_id_from_row`,
  `already_backfilled`, `get_status_code`, `parse_event_min`, `_to_float`
  as `to_float`, `parse_stats_min`) are translated function by function.
* `main` is modelled as a state-passing function over `RunState`; the
  external world (fetch results, write failures) is an `Env` oracle; the
  outcome distinguishes the listener's termination paths, including an
  uncaught exception escaping the processing loop (`MainOutcome.aborted`).
-/

namespace Listener

/-- A scalar value in a pandas cell.  A float is carried by its Python
`repr` string (Python floats round-trip through their shortest repr, and
the listener only ever applies `str(...)` and `float(...)` to cells). -/
inductive PyVal where
  | pstr (s : String)
  | pint (n : Int)
  | pfloat (r : String)
  | pnan
  | pbool (b : Bool)
deriving DecidableEq, Repr, Inhabited

/-- Python `str(...)` on a cell value. -/
def pyStr : PyVal → String
  | .pstr s => s
  | .pint n => toString n
  | .pfloat r => r
  | .pnan => "nan"
  | .pbool b => if b then "True" else "False"

/-- Numeric value of a list of decimal digit characters. -/
def digitsToNat (ds : List Char) : Nat :=
  ds.foldl (fun a c => a * 10 + (c.toNat - 48)) 0

/-- The whitespace stripped by Python `str.strip()` (ASCII fragment; the
listener's data never carries non-ASCII whitespace). -/
def isSpaceChar (c : Char) : Bool :=
  c == ' ' || c == '\t' || c == '\n' || c == '\r' || c == '\x0b' || c == '\x0c'

/-- Python `str.strip()` on a character list. -/
def stripChars (cs : List Char) : List Char :=
  ((cs.dropWhile isSpaceChar).reverse.dropWhile isSpaceChar).reverse

/-- Python `str.strip()`. -/
def pyStrip (s : String) : String := ⟨stripChars s.data⟩

/-- Python `str.lower()` (ASCII fragment, which covers the flag forms and
column names the listener compares). -/
def pyLower (s : String) : String := ⟨s.data.map Char.toLower⟩

/-- Python `str.replace("%", "")`: every occurrence removed. -/
def removePercent (s : String) : String := ⟨s.data.filter (fun c => c != '%')⟩

/-- Unsigned part of Python `float(...)` string parsing, over the grammar
`digits [. digits] | . digits` (exponents and `inf`/`nan` literals are not
modelled; in the listener they can only arise inside `int(float(...))`,
where `nan`/`inf` raise at the `int` step anyway, i.e. behave as failure). -/
def parseUnsignedRat (s : List Char) : Option ℚ :=
  let intPart := s.takeWhile (·.isDigit)
  let rest := s.dropWhile (·.isDigit)
  match rest with
  | [] => if intPart = [] then none else some (digitsToNat intPart)
  | '.' :: frac =>
    if frac.all (·.isDigit) && (!intPart.isEmpty || !frac.isEmpty) then
      some ((digitsToNat intPart : ℚ) + (digitsToNat frac : ℚ) / (10 ^ frac.length : ℚ))
    else none
  | _ => none

/-- Python `float(s)` on a string: strips whitespace, optional sign,
then the decimal grammar above. -/
def pyFloatOfString (s : String) : Option ℚ :=
  match stripChars s.data with
  | '+' :: r => parseUnsignedRat r
  | '-' :: r => (parseUnsignedRat r).map Neg.neg
  | r => parseUnsignedRat r

/-- Python `float(x)` on a cell value (`float` of a bool is 0.0/1.0 since
`bool` is an `int` subclass; `float(nan)` succeeds but the listener only
uses it under `int(...)`, which raises on `nan`, so it is folded into the
failure case here). -/
def pyFloatOfVal : PyVal → Option ℚ
  | .pint n => some (n : ℚ)
  | .pfloat r => pyFloatOfString r
  | .pstr s => pyFloatOfString s
  | .pbool b => some (if b then 1 else 0)
  | .pnan => none

/-- Truncation toward zero, as Python `int(...)` on a float. -/
def ratTrunc (q : ℚ) : Int := q.num / (q.den : Int)

/-- Python `int(float(x))`: fails (raises) when `float` fails or the value
is `nan`. -/
def intOfFloatVal (v : PyVal) : Option Int :=
  (pyFloatOfVal v).map ratTrunc

/-- Parsed JSON payload, as handed back by `read_json_from_page`. -/
inductive JVal where
  | jnull
  | jbool (b : Bool)
  | jnum (q : ℚ)
  | jstr (s : String)
  | jarr (xs : List JVal)
  | jobj (fields : List (String × JVal))
deriving Repr, Inhabited

namespace JVal

/-- Python subscript `d[k]` for a string key: succeeds only on a dict that
has the key (`KeyError`/`TypeError` otherwise, which the callers catch). -/
def subscript : JVal → String → Option JVal
  | .jobj fields, k => fields.lookup k
  | _, _ => none

/-- Python subscript `x[i]` for an integer index: succeeds only on a list
that is long enough.  (`s[i]` on a string would return a one-character
string, but every use site immediately subscripts the result with a string
key, which raises on a string just as on the other non-dict shapes, so the
composite behaviour is identical.) -/
def subscriptIdx : JVal → Nat → Option JVal
  | .jarr xs, i => xs.get? i
  | _, _ => none

/-- Python `d.get(k, default)`: default when the key is missing, raises
(`none`) when the receiver is not a dict. -/
def pyGetD : JVal → String → JVal → Option JVal
  | .jobj fields, k, d => some ((fields.lookup k).getD d)
  | _, _, _ => none

/-- Python `for x in v`: a list iterates its elements, a dict its keys, a
string its one-character substrings; other shapes raise `TypeError`. -/
def iterElems : JVal → Option (List JVal)
  | .jarr xs => some xs
  | .jobj fields => some (fields.map (fun p => JVal.jstr p.1))
  | .jstr s => some (s.toList.map (fun c => JVal.jstr c.toString))
  | _ => none

end JVal

/-- Python `v == q` for an integer literal `q`: true only for numeric
values (a bool compares as 0/1; strings, lists, dicts, None are unequal). -/
def pyEqNum (v : JVal) (q : ℚ) : Bool :=
  match v with
  | .jnum q2 => q2 == q
  | .jbool b => (if b then (1 : ℚ) else 0) == q
  | _ => false

/-! ## Configuration constants of the listener -/

def FINISHED_STATUS_CODE : ℚ := 100

/-! ## CSV helpers (`normalize_flag_series`, `extract_event_id_from_row`) -/

/-- The truthy string forms recognised by `normalize_flag_series`. -/
def truthyStrings : List String := ["1", "true", "t", "yes", "y"]

/-- Per-value normalisation: `str(x).strip().lower()` membership in the
truthy set (the body of the `map` lambda in `normalize_flag_series`). -/
def normalize_flag (v : PyVal) : Nat :=
  if truthyStrings.contains (pyLower (pyStrip (pyStr v))) then 1 else 0

/-- Whether a cell is a (numpy) boolean; a pandas series has `dtype == bool`
exactly when all of its values are booleans. -/
def isPBool : PyVal → Bool
  | .pbool _ => true
  | _ => false

/-- `normalize_flag_series(s)`: on a boolean-dtype series, `astype(int)`;
otherwise `astype(str).str.strip().str.lower()` mapped through the truthy
set. -/
def normalize_flag_series (s : List PyVal) : List Nat :=
  if s.all isPBool then
    s.map (fun v => match v with | .pbool b => if b then 1 else 0 | _ => 0)
  else
    s.map normalize_flag

/-- The recognised identifier column names. -/
def ID_COL_NAMES : List String := ["event_id", "eventid", "sofascore_event_id"]

/-- First loop of `extract_event_id_from_row`: for each column whose
lowercased name is recognised, try `int(float(value))`; on exception,
fall through to the next column. -/
def tryIdColumns : List (String × PyVal) → Option Int
  | [] => none
  | (c, v) :: rest =>
    if ID_COL_NAMES.contains (pyLower c) then
      match intOfFloatVal v with
      | some n => some n
      | none => tryIdColumns rest
    else tryIdColumns rest

/-- `pd.isna` on a cell value. -/
def pd_isna : PyVal → Bool
  | .pnan => true
  | _ => false

/-- Try to match `EVENT_ID_RE` (`/event/(\d+)`) at the head of the
character list: the literal marker followed by at least one digit; the
capture is the maximal digit run. -/
def matchEventIdAt : List Char → Option Nat
  | '/' :: 'e' :: 'v' :: 'e' :: 'n' :: 't' :: '/' :: rest =>
    let ds := rest.takeWhile (·.isDigit)
    if ds.isEmpty then none else some (digitsToNat ds)
  | _ => none

/-- `EVENT_ID_RE.search`: leftmost match of the pattern. -/
def searchEventId : List Char → Option Nat
  | [] => none
  | c :: rest =>
    match matchEventIdAt (c :: rest) with
    | some n => some n
    | none => searchEventId rest

/-- Second loop of `extract_event_id_from_row`: skip NaN cells, regex-scan
`str(value)` of every cell, first match wins. -/
def regexScan : List (String × PyVal) → Option Int
  | [] => none
  | (_, v) :: rest =>
    if pd_isna v then regexScan rest
    else
      match searchEventId (pyStr v).toList with
      | some n => some (n : Int)
      | none => regexScan rest

/-- `extract_event_id_from_row(row)`: explicit identifier column first,
then the regex scan over all cells. -/
def extract_event_id_from_row (row : List (String × PyVal)) : Option Int :=
  match tryIdColumns row with
  | some n => some n
  | none => regexScan row

/-- Modelled from the claim's words (C9), for comparison with the source
translation above: the second pass scans only the cells whose column name
is not a recognised identifier column ("the other cells"). -/
def extract_event_id_spec (row : List (String × PyVal)) : Option Int :=
  match tryIdColumns row with
  | some n => some n
  | none => regexScan (row.filter (fun p => !(ID_COL_NAMES.contains (pyLower p.1))))

/-! ## Status poller helper (`get_status_code`) -/

/-- `get_status_code(event_json)`:
`event_json.get("event", {}).get("status", {}).get("code")`, with any
`AttributeError` (non-dict receiver) caught and turned into `None`; a
JSON `null` stored under `"code"` is also Python `None`. -/
def get_status_code (ev : JVal) : Option JVal :=
  match ev with
  | .jobj fields =>
    match (fields.lookup "event").getD (.jobj []) with
    | .jobj f2 =>
      match (f2.lookup "status").getD (.jobj []) with
      | .jobj f3 =>
        match (f3.lookup "code").getD .jnull with
        | .jnull => none
        | v => some v
      | _ => none
    | _ => none
  | _ => none

/-- The guard `get_status_code(ev_json) != FINISHED_STATUS_CODE` in `main`,
phrased positively: the status code is present and Python-equal to 100. -/
def statusIsFinished (ev : JVal) : Bool :=
  match get_status_code ev with
  | some v => pyEqNum v FINISHED_STATUS_CODE
  | none => false

/-! ## Schema normalizer (`parse_event_min`, `_to_float`, `parse_stats_min`) -/

/-- The minimal event record emitted to the event stream.  The listener
copies the values found at the fixed paths without type checks, so the
fields are raw JSON values. -/
structure EventRecord where
  event_id : JVal
  season_year : JVal
  home_team : JVal
  away_team : JVal
  home_score : JVal
  away_score : JVal
  status_code : JVal
  start_timestamp : JVal
deriving Repr, Inhabited

/-- `parse_event_min(ev_json)`: eight fixed nested paths; any missing or
mistyped step fails the whole record. -/
def parse_event_min (ev_json : JVal) : Option EventRecord := do
  let ev ← ev_json.subscript "event"
  let eid ← ev.subscript "id"
  let sy ← (← ev.subscript "season").subscript "year"
  let ht ← (← ev.subscript "homeTeam").subscript "name"
  let at_ ← (← ev.subscript "awayTeam").subscript "name"
  let hs ← (← ev.subscript "homeScore").subscript "current"
  let as_ ← (← ev.subscript "awayScore").subscript "current"
  let sc ← (← ev.subscript "status").subscript "code"
  let ts ← ev.subscript "startTimestamp"
  some ⟨eid, sy, ht, at_, hs, as_, sc, ts⟩

/-- `_to_float(x)`: floats and ints pass through (a bool is an int with
value 0/1), strings are parsed after removing every `%` and stripping
whitespace, everything else (including `None`) yields `None`. -/
def to_float : JVal → Option ℚ
  | .jnum q => some q
  | .jbool b => some (if b then 1 else 0)
  | .jstr s => pyFloatOfString (pyStrip (removePercent s))
  | _ => none

/-- The minimal statistics record emitted to the stats stream. -/
structure StatsRecord where
  event_id : Int
  home_xg : Option ℚ
  away_xg : Option ℚ
deriving DecidableEq, Repr, Inhabited

/-- The test `it.get("key") == "expectedGoals"` on a dict item: Python
string equality, so only a string value can match. -/
def keyIsXg (fields : List (String × JVal)) : Bool :=
  match fields.lookup "key" with
  | some (.jstr k) => k = "expectedGoals"
  | _ => false

/-- Inner loop of `parse_stats_min`: walk `statisticsItems`, stop at the
first item whose `"key"` equals `"expectedGoals"` and report the coerced
`homeValue`/`awayValue` pair; `none` (outer) models an exception from
`it.get` on a non-dict item; `some none` means no item matched. -/
def scanItems : List JVal → Option (Option (Option ℚ × Option ℚ))
  | [] => some none
  | .jobj fields :: rest =>
    if keyIsXg fields then
      some (some (to_float ((fields.lookup "homeValue").getD .jnull),
                  to_float ((fields.lookup "awayValue").getD .jnull)))
    else scanItems rest
  | _ :: _ => none

/-- Outer loop of `parse_stats_min`: thread the `(home_xg, away_xg)` state
through the groups; after each group's inner loop, break as soon as
`home_xg` is not `None`.  `none` models an exception (a non-dict group, or
a non-iterable `statisticsItems`). -/
def scanGroups : List JVal → Option ℚ × Option ℚ → Option (Option ℚ × Option ℚ)
  | [], acc => some acc
  | .jobj fields :: rest, acc =>
    match JVal.iterElems ((fields.lookup "statisticsItems").getD (.jarr [])) with
    | none => none
    | some items =>
      match scanItems items with
      | none => none
      | some r =>
        let acc' := r.getD acc
        if acc'.1.isSome then some acc' else scanGroups rest acc'
  | _ :: _, _ => none

/-- `parse_stats_min(stats_json, event_id)`: navigate
`stats_json["statistics"][0]["groups"]`, scan the groups for the
`expectedGoals` metric, and always return a record carrying the given
`event_id`; any exception inside the `try` yields `None`. -/
def parse_stats_min (stats_json : JVal) (event_id : Int) : Option StatsRecord := do
  let s ← stats_json.subscript "statistics"
  let s0 ← s.subscriptIdx 0
  let groups ← s0.subscript "groups"
  let gl ← JVal.iterElems groups
  let (h, a) ← scanGroups gl (none, none)
  some ⟨event_id, h, a⟩

/-! ## The fixture registry as a data frame -/

/-- A pandas `DataFrame` as read by `pd.read_csv`: a header and rectangular
rows (one list of cells per row, positionally aligned with `cols`). -/
structure DataFrame where
  cols : List String
  rows : List (List PyVal)
deriving DecidableEq, Repr, Inhabited

/-- Position of a column label (pandas resolves a label to its first
occurrence). -/
def colIdx (df : DataFrame) (c : String) : Option Nat :=
  df.cols.findIdx? (· = c)

/-- `df.at[i, c]`, reading a single cell. -/
def getCell (df : DataFrame) (i : Nat) (c : String) : Option PyVal := do
  let j ← colIdx df c
  let r ← df.rows.get? i
  r.get? j

/-- `df.at[i, c] = v`, writing a single cell. -/
def setCell (df : DataFrame) (i : Nat) (c : String) (v : PyVal) : DataFrame :=
  match colIdx df c with
  | none => df
  | some j =>
    { df with rows := df.rows.modify (fun r => r.set j v) i }

/-- `df[c]` as a list of cells. -/
def getColumn (df : DataFrame) (c : String) : List PyVal :=
  match colIdx df c with
  | none => []
  | some j => df.rows.map (fun r => (r.get? j).getD (.pstr ""))

/-- `df[c] = vs`, replacing a whole column. -/
def setColumn (df : DataFrame) (c : String) (vs : List PyVal) : DataFrame :=
  match colIdx df c with
  | none => df
  | some j => { df with rows := df.rows.zipWith (fun r v => r.set j v) vs }

/-- `df.loc[i]`: one row as a label-indexed series. -/
def rowSeries (df : DataFrame) (i : Nat) : List (String × PyVal) :=
  df.cols.zip ((df.rows.get? i).getD [])

/-! ## Run state, environment and per-identifier step of `main` -/

/-- Observable actions of a run, in order: the two fetches against the
external source, the two stream-file emissions, and the registry rewrite. -/
inductive Action where
  | fetchEvent (eid : Int)
  | fetchStats (eid : Int)
  | emitEvent (eid : Int)
  | emitStats (eid : Int)
  | persist
deriving DecidableEq, Repr

/-- The uncaught exception raised by `write_json_atomic` for one of the two
files of one identifier (`isStatsFile = true` for the stats-stream file). -/
structure EmitFailure where
  rowIdx : Nat
  eid : Int
  isStatsFile : Bool
deriving DecidableEq, Repr, Inhabited

/-- State threaded through one run of `main`: the in-memory registry, the
registry file on disk, the two stream directories (each file keyed by the
identifier and timestamp embedded in its name), the counters printed by the
listener, the millisecond clock used by `out_paths`, and the action trace. -/
structure RunState where
  df : DataFrame
  csvOnDisk : DataFrame
  eventFiles : List (Int × Nat)
  statsFiles : List (Int × Nat)
  written : Nat
  flipped : Nat
  skipped_backfilled : Nat
  finished_seen : Nat
  now : Nat
  trace : List Action
deriving DecidableEq, Repr, Inhabited

/-- The external world: fetch results per identifier (`none` models a
timeout or unparseable body from `read_json_from_page`) and whether each
`write_json_atomic` call raises. -/
structure Env where
  fetchEventJson : Int → Option JVal
  fetchStatsJson : Int → Option JVal
  eventWriteFails : Int → Bool
  statsWriteFails : Int → Bool

/-- `already_backfilled(event_id)`: a file whose name embeds the identifier
exists in both stream directories. -/
def already_backfilled (st : RunState) (eid : Int) : Bool :=
  (st.eventFiles.any (fun p => p.1 == eid)) &&
  (st.statsFiles.any (fun p => p.1 == eid))

/-- Append one action to the trace. -/
def logA (st : RunState) (a : Action) : RunState :=
  { st with trace := st.trace ++ [a] }

/-- `if int(df.at[row_idx, "is_future_fixture"]) == 1: set 0; flipped += 1`.
After normalisation the column holds `pint` values, so only that shape can
flip. -/
def flipRowFlag (st : RunState) (rowIdx : Nat) : RunState :=
  match getCell st.df rowIdx "is_future_fixture" with
  | some (.pint 1) =>
    { st with df := setCell st.df rowIdx "is_future_fixture" (.pint 0),
              flipped := st.flipped + 1 }
  | _ => st

/-- The body of the `for` loop in `main` for one `(row_idx, event_id)`
pair.  `Sum.inl` is normal fall-through to the next identifier; `Sum.inr`
is an uncaught `write_json_atomic` exception together with the state at
the moment it was raised. -/
def processOne (env : Env) (force : Bool) (st : RunState) (rowIdx : Nat) (eid : Int) :
    RunState ⊕ (EmitFailure × RunState) :=
  if !force && already_backfilled st eid then
    .inl { st with skipped_backfilled := st.skipped_backfilled + 1 }
  else
    let st := logA st (.fetchEvent eid)
    match env.fetchEventJson eid with
    | none => .inl st
    | some ev_json =>
      if !statusIsFinished ev_json then .inl st
      else
        let st := { st with finished_seen := st.finished_seen + 1 }
        let st := logA st (.fetchStats eid)
        match env.fetchStatsJson eid with
        | none => .inl st
        | some st_json =>
          match parse_event_min ev_json, parse_stats_min st_json eid with
          | some _, some _ =>
            if env.eventWriteFails eid then .inr (⟨rowIdx, eid, false⟩, st)
            else
              let st := logA { st with eventFiles := st.eventFiles ++ [(eid, st.now)] }
                             (.emitEvent eid)
              if env.statsWriteFails eid then .inr (⟨rowIdx, eid, true⟩, st)
              else
                let st := logA { st with statsFiles := st.statsFiles ++ [(eid, st.now)] }
                               (.emitStats eid)
                .inl (flipRowFlag { st with written := st.written + 1 } rowIdx)
          | _, _ => .inl st

/-- The `for` loop of `main` over all extracted `(row_idx, event_id)`
pairs; an exception short-circuits (the `try` block has no `except`). -/
def runLoop (env : Env) (force : Bool) :
    List (Nat × Int) → RunState → RunState ⊕ (EmitFailure × RunState)
  | [], st => .inl st
  | (idx, eid) :: rest, st =>
    match processOne env force st idx eid with
    | .inl st' => runLoop env force rest st'
    | .inr e => .inr e

/-! ## `main` -/

/-- Termination paths of `main`.  `registryMissing` is the
`FileNotFoundError`, `schemaInvalid` the missing-column `ValueError`,
`nothingToDo` the early return when no row is flagged, `noEventIds` the
`ValueError` raised when extraction fails on every flagged row, `aborted`
an uncaught per-identifier exception escaping the loop (the `finally`
only quits the driver, and the CSV write after the loop is skipped), and
`done` normal completion. -/
inductive MainOutcome where
  | registryMissing
  | schemaInvalid
  | nothingToDo
  | noEventIds
  | aborted (e : EmitFailure) (st : RunState)
  | done (st : RunState)
deriving DecidableEq, Repr, Inhabited

/-- Normalisation step of `main`:
`df["is_future_fixture"] = normalize_flag_series(df["is_future_fixture"])`. -/
def loadNormalize (raw : DataFrame) : DataFrame :=
  setColumn raw "is_future_fixture"
    ((normalize_flag_series (getColumn raw "is_future_fixture")).map
      (fun n => PyVal.pint (n : Int)))

/-- `df.index[df["is_future_fixture"] == 1].tolist()`. -/
def futureIdx (df : DataFrame) : List Nat :=
  (List.range df.rows.length).filter
    (fun i => decide (getCell df i "is_future_fixture" = some (.pint 1)))

/-- The extraction loop of `main`: keep the rows with an extractable
identifier, in order (rows where extraction fails are counted and
skipped). -/
def idxAndEids (df : DataFrame) : List (Nat × Int) :=
  (futureIdx df).filterMap
    (fun idx => (extract_event_id_from_row (rowSeries df idx)).map (fun e => (idx, e)))

/-- The run state right after loading and normalising the registry,
before the first loop iteration. -/
def initState (raw : DataFrame) (fsEvent fsStats : List (Int × Nat)) (t0 : Nat) : RunState :=
  { df := loadNormalize raw, csvOnDisk := raw, eventFiles := fsEvent, statsFiles := fsStats,
    written := 0, flipped := 0, skipped_backfilled := 0, finished_seen := 0,
    now := t0, trace := [] }

/-- `main()`.  Inputs: the environment oracle, the `FORCE` toggle, the
registry file (`none` when `CSV_PATH` does not exist), the initial
contents of the two stream directories, and the start-of-run clock. -/
def main (env : Env) (force : Bool) (csv : Option DataFrame)
    (fsEvent fsStats : List (Int × Nat)) (t0 : Nat) : MainOutcome :=
  match csv with
  | none => .registryMissing
  | some raw =>
    if !(raw.cols.contains "is_future_fixture") then .schemaInvalid
    else if futureIdx (loadNormalize raw) = [] then .nothingToDo
    else if idxAndEids (loadNormalize raw) = [] then .noEventIds
    else
      match runLoop env force (idxAndEids (loadNormalize raw))
          (initState raw fsEvent fsStats t0) with
      | .inr (e, st) => .aborted e st
      | .inl st =>
        if 0 < st.flipped then
          .done (logA { st with csvOnDisk := st.df } .persist)
        else .done st

/-- State carried by a loop outcome (either side of the sum). -/
def stepState : RunState ⊕ (EmitFailure × RunState) → RunState
  | .inl st => st
  | .inr (_, st) => st

/-- State carried by a `main` outcome (`aborted`/`done`; default
otherwise). -/
def outcomeState : MainOutcome → RunState
  | .aborted _ st => st
  | .done st => st
  | _ => default

/-! ## Frame lemmas for the state-update helpers -/

theorem getCell_setCell_ne (df : DataFrame) (i j : Nat) (c c2 : String) (v : PyVal)
    (h : j ≠ i) : getCell (setCell df i c v) j c2 = getCell df j c2 := by
  unfold getCell setCell
  cases hc : colIdx df c with
  | none => rfl
  | some jc =>
    simp only [colIdx] at *
    simp [List.getElem?_modify, Ne.symm h]

@[simp] theorem logA_df (st : RunState) (a : Action) : (logA st a).df = st.df := rfl

@[simp] theorem logA_csvOnDisk (st : RunState) (a : Action) :
    (logA st a).csvOnDisk = st.csvOnDisk := rfl

@[simp] theorem logA_eventFiles (st : RunState) (a : Action) :
    (logA st a).eventFiles = st.eventFiles := rfl

@[simp] theorem logA_statsFiles (st : RunState) (a : Action) :
    (logA st a).statsFiles = st.statsFiles := rfl

@[simp] theorem logA_written (st : RunState) (a : Action) :
    (logA st a).written = st.written := rfl

@[simp] theorem logA_trace (st : RunState) (a : Action) :
    (logA st a).trace = st.trace ++ [a] := rfl

@[simp] theorem logA_now (st : RunState) (a : Action) : (logA st a).now = st.now := rfl

@[simp] theorem logA_flipped (st : RunState) (a : Action) :
    (logA st a).flipped = st.flipped := rfl

@[simp] theorem logA_skipped (st : RunState) (a : Action) :
    (logA st a).skipped_backfilled = st.skipped_backfilled := rfl

@[simp] theorem logA_finished (st : RunState) (a : Action) :
    (logA st a).finished_seen = st.finished_seen := rfl

@[simp] theorem flipRowFlag_csvOnDisk (st : RunState) (idx : Nat) :
    (flipRowFlag st idx).csvOnDisk = st.csvOnDisk := by
  unfold flipRowFlag; split <;> rfl

@[simp] theorem flipRowFlag_trace (st : RunState) (idx : Nat) :
    (flipRowFlag st idx).trace = st.trace := by
  unfold flipRowFlag; split <;> rfl

@[simp] theorem flipRowFlag_eventFiles (st : RunState) (idx : Nat) :
    (flipRowFlag st idx).eventFiles = st.eventFiles := by
  unfold flipRowFlag; split <;> rfl

@[simp] theorem flipRowFlag_statsFiles (st : RunState) (idx : Nat) :
    (flipRowFlag st idx).statsFiles = st.statsFiles := by
  unfold flipRowFlag; split <;> rfl

@[simp] theorem flipRowFlag_written (st : RunState) (idx : Nat) :
    (flipRowFlag st idx).written = st.written := by
  unfold flipRowFlag; split <;> rfl

@[simp] theorem flipRowFlag_now (st : RunState) (idx : Nat) :
    (flipRowFlag st idx).now = st.now := by
  unfold flipRowFlag; split <;> rfl

theorem flipRowFlag_getCell_ne (st : RunState) (idx j : Nat) (c : String) (hj : j ≠ idx) :
    getCell (flipRowFlag st idx).df j c = getCell st.df j c := by
  unfold flipRowFlag
  split
  · exact getCell_setCell_ne _ _ _ _ _ _ hj
  · rfl

theorem getCell_setCell_self (df : DataFrame) (i : Nat) (c : String) (v w : PyVal)
    (h : getCell df i c = some w) :
    getCell (setCell df i c v) i c = some v := by
  unfold getCell at h
  cases hc : colIdx df c with
  | none => rw [hc] at h; cases h
  | some j =>
    rw [hc] at h
    cases hr : df.rows.get? i with
    | none => rw [hr] at h; cases h
    | some r =>
      rw [hr] at h
      change r.get? j = some w at h
      have hlen : j < r.length := by
        by_contra hl
        push_neg at hl
        rw [List.get?_eq_none.mpr hl] at h
        cases h
      have hset : setCell df i c v
          = { df with rows := df.rows.modify (fun r => r.set j v) i } := by
        unfold setCell; rw [hc]
      rw [hset]
      unfold getCell
      have hc2 : colIdx { df with rows := df.rows.modify (fun r => r.set j v) i } c
          = some j := hc
      rw [hc2]
      have hmod : (df.rows.modify (fun r => r.set j v) i).get? i = some (r.set j v) := by
        simp only [List.get?_eq_getElem?, List.getElem?_modify]
        rw [← List.get?_eq_getElem?, hr]
        rfl
      rw [hmod]
      simp [List.getElem?_set_self', hlen]

/-- The flip step itself: when the processed row's flag is 1, it is set
to 0 in memory. -/
theorem flipRowFlag_flips (st : RunState) (idx : Nat)
    (h : getCell st.df idx "is_future_fixture" = some (.pint 1)) :
    getCell (flipRowFlag st idx).df idx "is_future_fixture" = some (.pint 0) := by
  unfold flipRowFlag
  rw [h]
  exact getCell_setCell_self st.df idx _ _ _ h

/-! ## Case lemmas for `processOne` -/

/-- With the force toggle off, a backfilled identifier is skipped: the
only state change is the `skipped_backfilled` counter. -/
theorem processOne_skip (env : Env) (st : RunState) (idx : Nat) (eid : Int)
    (h : already_backfilled st eid = true) :
    processOne env false st idx eid =
      .inl { st with skipped_backfilled := st.skipped_backfilled + 1 } := by
  simp [processOne, h]

/-- Frame conditions common to every normal (non-raising) step: the
registry file on disk is untouched, rows other than the processed one keep
their cells, the trace and the stream directories only grow, and no
`persist` action is emitted. -/
theorem processOne_inl_frame (env : Env) (force : Bool) (st : RunState) (idx : Nat)
    (eid : Int) (st' : RunState)
    (h : processOne env force st idx eid = .inl st') :
    st'.csvOnDisk = st.csvOnDisk ∧
    (∀ j c, j ≠ idx → getCell st'.df j c = getCell st.df j c) ∧
    (∃ d, st'.trace = st.trace ++ d ∧ Action.persist ∉ d) ∧
    (∃ d, st'.eventFiles = st.eventFiles ++ d) ∧
    (∃ d, st'.statsFiles = st.statsFiles ++ d) := by
  unfold processOne at h
  split at h
  · cases h
    exact ⟨rfl, fun j c _ => rfl, ⟨[], by simp, by simp⟩, ⟨[], by simp⟩, ⟨[], by simp⟩⟩
  · split at h
    · cases h
      exact ⟨rfl, fun j c _ => rfl, ⟨[Action.fetchEvent eid], by simp, by simp⟩,
        ⟨[], by simp⟩, ⟨[], by simp⟩⟩
    · split at h
      · cases h
        exact ⟨rfl, fun j c _ => rfl, ⟨[Action.fetchEvent eid], by simp, by simp⟩,
          ⟨[], by simp⟩, ⟨[], by simp⟩⟩
      · split at h
        · cases h
          exact ⟨rfl, fun j c _ => rfl,
            ⟨[Action.fetchEvent eid, Action.fetchStats eid], by simp, by simp⟩,
            ⟨[], by simp⟩, ⟨[], by simp⟩⟩
        · split at h
          · split at h
            · exact absurd h (by simp)
            · split at h
              · exact absurd h (by simp)
              · cases h
                refine ⟨by simp, fun j c hj => ?_,
                  ⟨[Action.fetchEvent eid, Action.fetchStats eid,
                    Action.emitEvent eid, Action.emitStats eid], by simp, by simp⟩,
                  ⟨[(eid, st.now)], by simp⟩, ⟨[(eid, st.now)], by simp⟩⟩
                rw [flipRowFlag_getCell_ne _ _ _ _ hj]
                simp
          · cases h
            exact ⟨rfl, fun j c _ => rfl,
              ⟨[Action.fetchEvent eid, Action.fetchStats eid], by simp, by simp⟩,
              ⟨[], by simp⟩, ⟨[], by simp⟩⟩

/-- What is true at the moment a `write_json_atomic` exception is raised:
it names the pair being processed, the in-memory registry and the on-disk
registry are exactly as before the step, no `persist` was logged, and the
last logged action shows processing stopped inside this identifier's
emission. -/
theorem processOne_inr_spec (env : Env) (force : Bool) (st : RunState) (idx : Nat)
    (eid : Int) (e : EmitFailure) (st' : RunState)
    (h : processOne env force st idx eid = .inr (e, st')) :
    e.rowIdx = idx ∧ e.eid = eid ∧ st'.df = st.df ∧ st'.csvOnDisk = st.csvOnDisk ∧
    (∃ d, st'.trace = st.trace ++ d ∧ Action.persist ∉ d) ∧
    st'.trace.getLast? =
      some (if e.isStatsFile then Action.emitEvent eid else Action.fetchStats eid) := by
  unfold processOne at h
  split at h
  · exact absurd h (by simp)
  · split at h
    · exact absurd h (by simp)
    · split at h
      · exact absurd h (by simp)
      · split at h
        · exact absurd h (by simp)
        · split at h
          · split at h
            · cases h
              refine ⟨rfl, rfl, by simp, by simp,
                ⟨[Action.fetchEvent eid, Action.fetchStats eid], by simp, by simp⟩, ?_⟩
              simp [← List.append_assoc, List.getLast?_concat]
            · split at h
              · cases h
                refine ⟨rfl, rfl, by simp, by simp,
                  ⟨[Action.fetchEvent eid, Action.fetchStats eid, Action.emitEvent eid],
                    by simp, by simp⟩, ?_⟩
                simp [← List.append_assoc, List.getLast?_concat]
              · exact absurd h (by simp)
          · exact absurd h (by simp)

/-- A normal step either leaves the registry rows and both stream
directories exactly as they were, or it is a completed emission: every
guard on the way to the two writes held, both files for the identifier
now exist, and the written counter advanced. -/
theorem processOne_emit_or_frame (env : Env) (force : Bool) (st : RunState) (idx : Nat)
    (eid : Int) (st' : RunState)
    (h : processOne env force st idx eid = .inl st') :
    (st'.df = st.df ∧ st'.eventFiles = st.eventFiles ∧ st'.statsFiles = st.statsFiles ∧
      st'.written = st.written) ∨
    (∃ ev sj, env.fetchEventJson eid = some ev ∧ statusIsFinished ev = true ∧
      env.fetchStatsJson eid = some sj ∧ (parse_event_min ev).isSome ∧
      (parse_stats_min sj eid).isSome ∧ env.eventWriteFails eid = false ∧
      env.statsWriteFails eid = false ∧ already_backfilled st' eid = true ∧
      st'.written = st.written + 1 ∧
      (getCell st.df idx "is_future_fixture" = some (.pint 1) →
        getCell st'.df idx "is_future_fixture" = some (.pint 0))) := by
  unfold processOne at h
  split at h
  · cases h; exact .inl ⟨rfl, rfl, rfl, rfl⟩
  · split at h
    · cases h; exact .inl ⟨by simp, by simp, by simp, by simp⟩
    · rename_i ev hev
      split at h
      · cases h; exact .inl ⟨by simp, by simp, by simp, by simp⟩
      · rename_i hfin
        split at h
        · cases h; exact .inl ⟨by simp, by simp, by simp, by simp⟩
        · rename_i sj hsj
          split at h
          · rename_i evm stm hpe hps
            split at h
            · exact absurd h (by simp)
            · rename_i hwe
              split at h
              · exact absurd h (by simp)
              · rename_i hws
                cases h
                refine .inr ⟨ev, sj, hev, by simpa using hfin, hsj, by simp [hpe],
                  by simp [hps], by simpa using hwe, by simpa using hws, ?_, by simp,
                  fun hflag => ?_⟩
                · simp [already_backfilled]
                · exact flipRowFlag_flips _ idx hflag
          · cases h; exact .inl ⟨by simp, by simp, by simp, by simp⟩

/-- When the force toggle is on, the dedup guard is bypassed: the step
always proceeds to the event fetch, whatever the stream directories
contain. -/
theorem processOne_force_fetches (env : Env) (st : RunState) (idx : Nat) (eid : Int) :
    Action.fetchEvent eid ∈ (stepState (processOne env true st idx eid)).trace := by
  unfold processOne
  rw [if_neg (by simp)]
  repeat' split
  all_goals simp [stepState]

/-- A statistics fetch newly logged by a step belongs to the processed
identifier and is guarded: the event fetch succeeded and its status code
was the finished sentinel. -/
theorem processOne_newStats (env : Env) (force : Bool) (st : RunState) (idx : Nat)
    (eid eid2 : Int)
    (hold : Action.fetchStats eid2 ∉ st.trace)
    (hnew : Action.fetchStats eid2 ∈ (stepState (processOne env force st idx eid)).trace) :
    eid2 = eid ∧ ∃ ev, env.fetchEventJson eid = some ev ∧ statusIsFinished ev = true := by
  unfold processOne at hnew
  split at hnew
  · simp [stepState] at hnew
    exact absurd hnew hold
  · split at hnew
    · simp [stepState] at hnew
      exact absurd hnew hold
    · rename_i ev hev
      split at hnew
      · simp [stepState] at hnew
        exact absurd hnew hold
      · rename_i hfin
        have hok : statusIsFinished ev = true := by
          revert hfin
          cases statusIsFinished ev <;> simp
        have heq : eid2 = eid → eid2 = eid ∧ ∃ ev2,
            env.fetchEventJson eid = some ev2 ∧ statusIsFinished ev2 = true :=
          fun he => ⟨he, ev, hev, hok⟩
        split at hnew <;>
          [skip;
           (split at hnew <;>
             [(split at hnew <;>
                [skip;
                 (split at hnew <;> [skip; skip])]);
              skip])] <;>
        · simp [stepState] at hnew
          rcases hnew with hnew | hnew
          · exact absurd hnew hold
          · exact heq hnew


/-! ## Invariants of the processing loop -/

/-- A completed loop never touches the on-disk registry, never logs a
`persist` action, and only grows the stream directories. -/
theorem runLoop_inl_frame (env : Env) (force : Bool) :
    ∀ (pairs : List (Nat × Int)) (st st' : RunState),
    runLoop env force pairs st = .inl st' →
    st'.csvOnDisk = st.csvOnDisk ∧
    (∃ d, st'.trace = st.trace ++ d ∧ Action.persist ∉ d) ∧
    (∃ d, st'.eventFiles = st.eventFiles ++ d) ∧
    (∃ d, st'.statsFiles = st.statsFiles ++ d)
  | [], st, st', h => by
    cases h
    exact ⟨rfl, ⟨[], by simp, by simp⟩, ⟨[], by simp⟩, ⟨[], by simp⟩⟩
  | (idx, eid) :: rest, st, st', h => by
    unfold runLoop at h
    split at h
    · rename_i st1 h1
      obtain ⟨hc, _, ⟨d1, ht1, hp1⟩, ⟨e1, he1⟩, ⟨s1, hs1⟩⟩ :=
        processOne_inl_frame env force st idx eid st1 h1
      obtain ⟨hc2, ⟨d2, ht2, hp2⟩, ⟨e2, he2⟩, ⟨s2, hs2⟩⟩ :=
        runLoop_inl_frame env force rest st1 st' h
      refine ⟨hc2.trans hc, ⟨d1 ++ d2, ?_, ?_⟩, ⟨e1 ++ e2, ?_⟩, ⟨s1 ++ s2, ?_⟩⟩
      · rw [ht2, ht1, List.append_assoc]
      · simp [hp1, hp2]
      · rw [he2, he1, List.append_assoc]
      · rw [hs2, hs1, List.append_assoc]
    · cases h

/-- When the loop ends in an uncaught exception: provided the rows named
by the pending pairs all carried flag 1 and the row indices are distinct
(both hold for the lists `main` builds), the on-disk registry and a
`persist`-free trace are preserved, the failing pair is one of the inputs,
its row still carries flag 1 in memory, and the last trace entry shows
where processing stopped. -/
theorem runLoop_inr_spec (env : Env) (force : Bool) :
    ∀ (pairs : List (Nat × Int)) (st : RunState) (e : EmitFailure) (st' : RunState),
    runLoop env force pairs st = .inr (e, st') →
    (pairs.map Prod.fst).Nodup →
    (∀ p ∈ pairs, getCell st.df p.1 "is_future_fixture" = some (.pint 1)) →
    st'.csvOnDisk = st.csvOnDisk ∧
    (∃ d, st'.trace = st.trace ++ d ∧ Action.persist ∉ d) ∧
    getCell st'.df e.rowIdx "is_future_fixture" = some (.pint 1) ∧
    st'.trace.getLast? =
      some (if e.isStatsFile then Action.emitEvent e.eid else Action.fetchStats e.eid) ∧
    (∃ p ∈ pairs, p.1 = e.rowIdx ∧ p.2 = e.eid)
  | [], st, e, st', h, _, _ => by cases h
  | (idx, eid) :: rest, st, e, st', h, hnd, hflag => by
    unfold runLoop at h
    split at h
    · rename_i st1 h1
      obtain ⟨hc1, hcell1, ⟨d1, ht1, hp1⟩, _, _⟩ :=
        processOne_inl_frame env force st idx eid st1 h1
      have hnd' : (rest.map Prod.fst).Nodup := (List.nodup_cons.mp (by simpa using hnd)).2
      have hidx_not : idx ∉ rest.map Prod.fst := (List.nodup_cons.mp (by simpa using hnd)).1
      have hflag' : ∀ p ∈ rest, getCell st1.df p.1 "is_future_fixture" = some (.pint 1) := by
        intro p hp
        have hne : p.1 ≠ idx :=
          fun hq => hidx_not (hq ▸ List.mem_map_of_mem Prod.fst hp)
        rw [hcell1 p.1 _ hne]
        exact hflag p (List.mem_cons_of_mem _ hp)
      obtain ⟨hc2, ⟨d2, ht2, hp2⟩, hcell2, hlast2, p, hpmem, hpe⟩ :=
        runLoop_inr_spec env force rest st1 e st' h hnd' hflag'
      exact ⟨hc2.trans hc1,
        ⟨d1 ++ d2, by rw [ht2, ht1, List.append_assoc], by simp [hp1, hp2]⟩,
        hcell2, hlast2, p, List.mem_cons_of_mem _ hpmem, hpe⟩
    · rename_i ee h1
      cases h
      obtain ⟨hrow, heid, hdf, hcsv, htr, hlast⟩ :=
        processOne_inr_spec env force st idx eid e st' h1
      refine ⟨hcsv, htr, ?_, by rw [heid]; exact hlast,
        ⟨(idx, eid), List.mem_cons_self _ _, hrow.symm, heid.symm⟩⟩
      rw [hdf, hrow]
      exact hflag (idx, eid) (List.mem_cons_self _ _)

/-! ## Structure of `futureIdx` and `idxAndEids` -/

theorem mem_futureIdx (df : DataFrame) (i : Nat) (h : i ∈ futureIdx df) :
    getCell df i "is_future_fixture" = some (.pint 1) := by
  unfold futureIdx at h
  simpa using (List.mem_filter.mp h).2

theorem futureIdx_nodup (df : DataFrame) : (futureIdx df).Nodup :=
  (List.nodup_range _).filter _

theorem idxAndEids_fst_sublist (df : DataFrame) :
    ((idxAndEids df).map Prod.fst).Sublist (futureIdx df) := by
  unfold idxAndEids
  induction futureIdx df with
  | nil => simp
  | cons a l ih =>
    rw [List.filterMap_cons]
    cases h : extract_event_id_from_row (rowSeries df a) with
    | none => exact ih.cons a
    | some e =>
      rw [Option.map_some', List.map_cons]
      exact ih.cons₂ a

theorem idxAndEids_fst_nodup (df : DataFrame) : ((idxAndEids df).map Prod.fst).Nodup :=
  (futureIdx_nodup df).sublist (idxAndEids_fst_sublist df)

theorem mem_idxAndEids (df : DataFrame) (p : Nat × Int) (h : p ∈ idxAndEids df) :
    p.1 ∈ futureIdx df ∧ extract_event_id_from_row (rowSeries df p.1) = some p.2 := by
  unfold idxAndEids at h
  obtain ⟨a, ha, he⟩ := List.mem_filterMap.mp h
  obtain ⟨e, he1, he2⟩ := Option.map_eq_some'.mp he
  cases he2
  exact ⟨ha, he1⟩

/-! ## Eliminating `main` outcomes back to the loop -/

theorem main_aborted_elim (env : Env) (force : Bool) (raw : DataFrame)
    (fsEvent fsStats : List (Int × Nat)) (t0 : Nat) (e : EmitFailure) (st : RunState)
    (h : main env force (some raw) fsEvent fsStats t0 = .aborted e st) :
    runLoop env force (idxAndEids (loadNormalize raw)) (initState raw fsEvent fsStats t0)
      = .inr (e, st) := by
  unfold main at h
  split at h
  · rename_i heq
    exact absurd heq (by simp)
  · rename_i raw2 heq
    injection heq with heq2
    subst heq2
    split at h
    · exact absurd h (by simp)
    · split at h
      · exact absurd h (by simp)
      · split at h
        · exact absurd h (by simp)
        · split at h
          · rename_i e2 st2 h1
            cases h
            exact h1
          · rename_i p h1
            split at h <;> exact absurd h (by simp)

theorem main_done_elim (env : Env) (force : Bool) (raw : DataFrame)
    (fsEvent fsStats : List (Int × Nat)) (t0 : Nat) (st : RunState)
    (h : main env force (some raw) fsEvent fsStats t0 = .done st) :
    ∃ st1, runLoop env force (idxAndEids (loadNormalize raw))
        (initState raw fsEvent fsStats t0) = .inl st1 ∧
      ((0 < st1.flipped ∧ st = logA { st1 with csvOnDisk := st1.df } .persist) ∨
       (st1.flipped = 0 ∧ st = st1)) := by
  unfold main at h
  split at h
  · rename_i heq
    exact absurd heq (by simp)
  · rename_i raw2 heq
    injection heq with heq2
    subst heq2
    split at h
    · exact absurd h (by simp)
    · split at h
      · exact absurd h (by simp)
      · split at h
        · exact absurd h (by simp)
        · split at h
          · rename_i e2 st2 h1
            exact absurd h (by simp)
          · rename_i p h1
            split at h
            · rename_i hfl
              cases h
              exact ⟨p, h1, .inl ⟨hfl, rfl⟩⟩
            · rename_i hfl
              cases h
              exact ⟨st, h1, .inr ⟨by omega, rfl⟩⟩

/-- Every pair handed to the loop names a row that carries flag 1 in the
initial state. -/
theorem initState_pairs_flagged (raw : DataFrame) (fsEvent fsStats : List (Int × Nat))
    (t0 : Nat) :
    ∀ p ∈ idxAndEids (loadNormalize raw),
      getCell (initState raw fsEvent fsStats t0).df p.1 "is_future_fixture"
        = some (.pint 1) :=
  fun p hp => mem_futureIdx _ _ (mem_idxAndEids _ p hp).1

/-! ## Structure of `parse_stats_min` -/

/-- The container navigation of `parse_stats_min`:
`stats_json["statistics"][0]["groups"]`, then the group iteration; `none`
models an exception at any of those steps. -/
def statsGroups (stats_json : JVal) : Option (List JVal) := do
  let s ← stats_json.subscript "statistics"
  let s0 ← s.subscriptIdx 0
  let groups ← s0.subscript "groups"
  JVal.iterElems groups

theorem parse_stats_min_eq (sj : JVal) (eid : Int) :
    parse_stats_min sj eid = (statsGroups sj).bind
      (fun gl => (scanGroups gl (none, none)).map
        (fun pr => ⟨eid, pr.1, pr.2⟩)) := by
  unfold parse_stats_min statsGroups
  cases h1 : sj.subscript "statistics" with
  | none => rfl
  | some s =>
    cases h2 : s.subscriptIdx 0 with
    | none => simp [h2]
    | some s0 =>
      cases h3 : s0.subscript "groups" with
      | none => simp [h2, h3]
      | some groups =>
        cases h4 : JVal.iterElems groups with
        | none => simp [h2, h3, h4]
        | some gl =>
          cases h5 : scanGroups gl (none, none) with
          | none => simp [h2, h3, h4, h5]
          | some pr =>
            obtain ⟨hx, ax⟩ := pr
            simp [h2, h3, h4, h5]

/-- An item that will not fire the `expectedGoals` test: it is a dict (so
`it.get` does not raise) whose `"key"` is not the string
`"expectedGoals"`. -/
def itemIsNotXg : JVal → Bool
  | .jobj fields => !keyIsXg fields
  | _ => false

/-- A group whose inner scan runs to completion without a match: a dict
whose `statisticsItems` iterates, every item being a non-`expectedGoals`
dict. -/
def groupHasNoXg : JVal → Bool
  | .jobj fields =>
    match JVal.iterElems ((fields.lookup "statisticsItems").getD (.jarr [])) with
    | some items => items.all itemIsNotXg
    | none => false
  | _ => false

/-- An item the inner scan can process without raising: a dict. -/
def itemIsObj : JVal → Bool
  | .jobj _ => true
  | _ => false

/-- A group the scan can process without raising: a dict whose
`statisticsItems` iterates into dict items. -/
def groupScannable : JVal → Bool
  | .jobj fields =>
    match JVal.iterElems ((fields.lookup "statisticsItems").getD (.jarr [])) with
    | some items => items.all itemIsObj
    | none => false
  | _ => false

theorem scanItems_no_match : ∀ (items : List JVal),
    items.all itemIsNotXg = true → scanItems items = some none
  | [], _ => rfl
  | it :: rest, h => by
    rw [List.all_cons, Bool.and_eq_true] at h
    obtain ⟨h1, h2⟩ := h
    cases it with
    | jobj fields =>
      have hk : keyIsXg fields = false := by simpa [itemIsNotXg] using h1
      rw [show scanItems (.jobj fields :: rest)
            = if keyIsXg fields then
                some (some (to_float ((fields.lookup "homeValue").getD .jnull),
                            to_float ((fields.lookup "awayValue").getD .jnull)))
              else scanItems rest from rfl, hk]
      simpa using scanItems_no_match rest h2
    | jnull => exact absurd h1 (by simp [itemIsNotXg])
    | jbool b => exact absurd h1 (by simp [itemIsNotXg])
    | jnum q => exact absurd h1 (by simp [itemIsNotXg])
    | jstr s => exact absurd h1 (by simp [itemIsNotXg])
    | jarr xs => exact absurd h1 (by simp [itemIsNotXg])

theorem scanGroups_cons_obj (fields : List (String × JVal)) (rest : List JVal)
    (acc : Option ℚ × Option ℚ) :
    scanGroups (.jobj fields :: rest) acc
      = match JVal.iterElems ((fields.lookup "statisticsItems").getD (.jarr [])) with
        | none => none
        | some items =>
          match scanItems items with
          | none => none
          | some r =>
            let acc2 := r.getD acc
            if acc2.1.isSome then some acc2 else scanGroups rest acc2 := rfl

theorem scanGroups_no_match : ∀ (gl : List JVal),
    gl.all groupHasNoXg = true → scanGroups gl (none, none) = some (none, none)
  | [], _ => rfl
  | g :: rest, h => by
    rw [List.all_cons, Bool.and_eq_true] at h
    obtain ⟨h1, h2⟩ := h
    cases g with
    | jobj fields =>
      have h1a : (match JVal.iterElems ((fields.lookup "statisticsItems").getD (.jarr [])) with
          | some items => items.all itemIsNotXg
          | none => false) = true := h1
      cases hit : JVal.iterElems ((fields.lookup "statisticsItems").getD (.jarr [])) with
      | none => rw [hit] at h1a; cases h1a
      | some items =>
        rw [hit] at h1a
        have h1b : items.all itemIsNotXg = true := h1a
        rw [scanGroups_cons_obj, hit]
        show (match scanItems items with
              | none => none
              | some r =>
                let acc2 := r.getD (none, none)
                if acc2.1.isSome then some acc2 else scanGroups rest acc2)
            = some (none, none)
        rw [scanItems_no_match items h1b]
        exact scanGroups_no_match rest h2
    | jnull => exact absurd h1 (by simp [groupHasNoXg])
    | jbool b => exact absurd h1 (by simp [groupHasNoXg])
    | jnum q => exact absurd h1 (by simp [groupHasNoXg])
    | jstr s => exact absurd h1 (by simp [groupHasNoXg])
    | jarr xs => exact absurd h1 (by simp [groupHasNoXg])

theorem scanItems_isSome : ∀ (items : List JVal),
    items.all itemIsObj = true → ∃ r, scanItems items = some r
  | [], _ => ⟨none, rfl⟩
  | it :: rest, h => by
    rw [List.all_cons, Bool.and_eq_true] at h
    obtain ⟨h1, h2⟩ := h
    cases it with
    | jobj fields =>
      rw [show scanItems (.jobj fields :: rest)
            = if keyIsXg fields then
                some (some (to_float ((fields.lookup "homeValue").getD .jnull),
                            to_float ((fields.lookup "awayValue").getD .jnull)))
              else scanItems rest from rfl]
      cases hk : keyIsXg fields with
      | true => exact ⟨_, by rw [if_pos rfl]⟩
      | false =>
        rw [if_neg (by simp)]
        exact scanItems_isSome rest h2
    | jnull => exact absurd h1 (by simp [itemIsObj])
    | jbool b => exact absurd h1 (by simp [itemIsObj])
    | jnum q => exact absurd h1 (by simp [itemIsObj])
    | jstr s => exact absurd h1 (by simp [itemIsObj])
    | jarr xs => exact absurd h1 (by simp [itemIsObj])

theorem scanGroups_isSome : ∀ (gl : List JVal) (acc : Option ℚ × Option ℚ),
    gl.all groupScannable = true → ∃ r, scanGroups gl acc = some r
  | [], acc, _ => ⟨acc, rfl⟩
  | g :: rest, acc, h => by
    rw [List.all_cons, Bool.and_eq_true] at h
    obtain ⟨h1, h2⟩ := h
    cases g with
    | jobj fields =>
      have h1a : (match JVal.iterElems ((fields.lookup "statisticsItems").getD (.jarr [])) with
          | some items => items.all itemIsObj
          | none => false) = true := h1
      cases hit : JVal.iterElems ((fields.lookup "statisticsItems").getD (.jarr [])) with
      | none => rw [hit] at h1a; cases h1a
      | some items =>
        rw [hit] at h1a
        have h1b : items.all itemIsObj = true := h1a
        obtain ⟨r, hr⟩ := scanItems_isSome items h1b
        rw [scanGroups_cons_obj, hit]
        show ∃ r2, (match scanItems items with
              | none => none
              | some r =>
                let acc2 := r.getD acc
                if acc2.1.isSome then some acc2 else scanGroups rest acc2)
            = some r2
        rw [hr]
        cases hs : (r.getD acc).1.isSome with
        | true =>
          refine ⟨r.getD acc, ?_⟩
          show (if (r.getD acc).1.isSome = true then some (r.getD acc)
                else scanGroups rest (r.getD acc)) = some (r.getD acc)
          rw [hs, if_pos rfl]
        | false =>
          obtain ⟨r2, hr2⟩ := scanGroups_isSome rest (r.getD acc) h2
          refine ⟨r2, ?_⟩
          show (if (r.getD acc).1.isSome = true then some (r.getD acc)
                else scanGroups rest (r.getD acc)) = some r2
          rw [hs]
          simpa using hr2
    | jnull => exact absurd h1 (by simp [groupScannable])
    | jbool b => exact absurd h1 (by simp [groupScannable])
    | jnum q => exact absurd h1 (by simp [groupScannable])
    | jstr s => exact absurd h1 (by simp [groupScannable])
    | jarr xs => exact absurd h1 (by simp [groupScannable])

/-! ## Concrete fixtures used by witnesses and counterexamples -/

/-- A finished event payload for identifier `n`: all eight fixed paths
present, status code 100. -/
def finishedEventJson (n : Int) : JVal :=
  .jobj [("event", .jobj [
    ("id", .jnum (n : ℚ)),
    ("season", .jobj [("year", .jnum 2024)]),
    ("homeTeam", .jobj [("name", .jstr "H")]),
    ("awayTeam", .jobj [("name", .jstr "A")]),
    ("homeScore", .jobj [("current", .jnum 2)]),
    ("awayScore", .jobj [("current", .jnum 1)]),
    ("status", .jobj [("code", .jnum 100)]),
    ("startTimestamp", .jnum 1700000000)])]

/-- A statistics payload whose container parses but carries no groups,
hence no `expectedGoals` anywhere. -/
def emptyStatsJson : JVal :=
  .jobj [("statistics", .jarr [.jobj [("groups", .jarr [])]])]

/-- A registry with two pending rows carrying identifiers 1 and 2. -/
def dfTwoIds : DataFrame :=
  { cols := ["event_id", "is_future_fixture"],
    rows := [[.pint 1, .pstr "1"], [.pint 2, .pstr "1"]] }

/-- A registry with two pending rows both carrying identifier 1. -/
def dfDupIds : DataFrame :=
  { cols := ["event_id", "is_future_fixture"],
    rows := [[.pint 1, .pstr "1"], [.pint 1, .pstr "1"]] }

/-- Both fetches succeed with parseable finished payloads; no write
fails. -/
def envAllOk : Env :=
  { fetchEventJson := fun n => some (finishedEventJson n),
    fetchStatsJson := fun _ => some emptyStatsJson,
    eventWriteFails := fun _ => false,
    statsWriteFails := fun _ => false }

/-- As `envAllOk`, but the event-file write raises for identifier 1. -/
def envFail1 : Env := { envAllOk with eventWriteFails := fun n => n == 1 }

/-- As `envAllOk`, but the event-file write raises for identifier 2. -/
def envFail2 : Env := { envAllOk with eventWriteFails := fun n => n == 2 }

/-! ## Claims -/

theorem normalize_flag_series_eq_map (s : List PyVal) :
    normalize_flag_series s = s.map normalize_flag := by
  unfold normalize_flag_series
  split
  · rename_i hall
    refine List.map_congr_left ?_
    intro v hv
    have hb := List.all_eq_true.mp hall v hv
    cases v with
    | pbool b => cases b <;> rfl
    | pstr s2 => simp [isPBool] at hb
    | pint n => simp [isPBool] at hb
    | pfloat r => simp [isPBool] at hb
    | pnan => simp [isPBool] at hb
  · rfl

/-- C7: `normalizeFlag` is pure and total on every cell: the series map
is a per-value map that drops no row; every value maps to 0 or 1; a value
maps to 1 exactly when the case-insensitive trimmed text of its string
form is in the truthy set (so booleans map to 1 iff true, and every other
value — numeric, textual, or missing — maps to 0). -/
theorem claim_C7 :
    (∀ s : List PyVal, normalize_flag_series s = s.map normalize_flag) ∧
    (∀ s : List PyVal, (normalize_flag_series s).length = s.length) ∧
    (∀ v : PyVal, normalize_flag v = 1 ∨ normalize_flag v = 0) ∧
    (∀ v : PyVal, normalize_flag v = 1 ↔
      truthyStrings.contains (pyLower (pyStrip (pyStr v))) = true) ∧
    (∀ b : Bool, normalize_flag (.pbool b) = if b then 1 else 0) ∧
    normalize_flag .pnan = 0 := by
  refine ⟨normalize_flag_series_eq_map, fun s => ?_, fun v => ?_, fun v => ?_,
    fun b => ?_, rfl⟩
  · rw [normalize_flag_series_eq_map]
    exact List.length_map _ _
  · unfold normalize_flag
    split
    · exact .inl rfl
    · exact .inr rfl
  · constructor
    · intro h1
      by_contra hc
      simp only [normalize_flag] at h1
      rw [if_neg hc] at h1
      cases h1
    · intro h2
      simp only [normalize_flag]
      rw [if_pos h2]
  · cases b <;> rfl

/-- C9 (counterexample): the claim says the second extraction step scans
only "the other cells" (cells not in an identifier-named column).  On a
row whose only cell sits in the `event_id` column and holds the text
`/event/123` (unparseable as a number), the code's regex pass still scans
that cell and returns 123, while the claim-described extractor returns
none. -/
theorem claim_C9_counterexample :
    extract_event_id_from_row [("event_id", .pstr "/event/123")] = some 123 ∧
    extract_event_id_spec [("event_id", .pstr "/event/123")] = none :=
  ⟨rfl, rfl⟩

/-- C9 (amended): identifier extraction first tries the recognised
identifier-named columns parsed as integers (truncating numeric-looking
floats toward zero), and only if that yields nothing regex-scans the
string form of every cell — including the identifier-named ones — for the
first `/event/<digits>` pattern; it returns none exactly when both passes
yield nothing. -/
theorem claim_C9_amended :
    (∀ row n, tryIdColumns row = some n → extract_event_id_from_row row = some n) ∧
    (∀ row, tryIdColumns row = none → extract_event_id_from_row row = regexScan row) ∧
    (∀ row, extract_event_id_from_row row = none ↔
      (tryIdColumns row = none ∧ regexScan row = none)) ∧
    (∀ v q, pyFloatOfVal v = some q → intOfFloatVal v = some (ratTrunc q)) ∧
    intOfFloatVal (.pstr "7.9") = some 7 := by
  refine ⟨?_, ?_, ?_, ?_, ?_⟩
  · intro row n h
    unfold extract_event_id_from_row
    rw [h]
  · intro row h
    unfold extract_event_id_from_row
    rw [h]
  · intro row
    unfold extract_event_id_from_row
    cases h : tryIdColumns row with
    | some n => simp
    | none => simp
  · intro v q h
    unfold intOfFloatVal
    rw [h]
    rfl
  · have h1 : intOfFloatVal (.pstr "7.9")
        = some (ratTrunc (((7 : ℕ) : ℚ) + ((9 : ℕ) : ℚ) / ((10 : ℚ) ^ 1))) := rfl
    have h2 : (((7 : ℕ) : ℚ) + ((9 : ℕ) : ℚ) / ((10 : ℚ) ^ 1)) = 79 / 10 := by norm_num
    rw [h1, h2]
    have h3 : ((79 / 10 : ℚ)).num = 79 := by norm_num
    have h4 : ((79 / 10 : ℚ)).den = 10 := by norm_num
    unfold ratTrunc
    rw [h3, h4]
    rfl

/-- C9 witness: the amended theorem applied at concrete rows. -/
theorem claim_C9_amended_witness :
    extract_event_id_from_row [("eventid", .pint 7)] = some 7 ∧
    extract_event_id_from_row [("x", .pstr "/event/9")]
      = regexScan [("x", .pstr "/event/9")] ∧
    (extract_event_id_from_row [("x", .pstr "n/a")] = none ↔
      (tryIdColumns [("x", .pstr "n/a")] = none ∧
       regexScan [("x", .pstr "n/a")] = none)) ∧
    intOfFloatVal (.pint 5) = some (ratTrunc ((5 : Int) : ℚ)) :=
  ⟨claim_C9_amended.1 [("eventid", .pint 7)] 7 rfl,
   claim_C9_amended.2.1 [("x", .pstr "/event/9")] rfl,
   claim_C9_amended.2.2.1 [("x", .pstr "n/a")],
   claim_C9_amended.2.2.2.1 (.pint 5) ((5 : Int) : ℚ) rfl⟩

theorem already_backfilled_mono (st st' : RunState) (eid : Int)
    (he : ∃ d, st'.eventFiles = st.eventFiles ++ d)
    (hs : ∃ d, st'.statsFiles = st.statsFiles ++ d)
    (h : already_backfilled st eid = true) : already_backfilled st' eid = true := by
  obtain ⟨d1, h1⟩ := he
  obtain ⟨d2, h2⟩ := hs
  unfold already_backfilled at h ⊢
  rw [h1, h2, List.any_append, List.any_append]
  rw [Bool.and_eq_true] at h
  simp [h.1, h.2]

/-- C5: `alreadyEmitted` is true iff a file embedding the identifier
exists in both stream directories; it is false before any emission for
the identifier; it is true immediately after a step that completes an
emission; it stays true across any later step (files only accumulate, so
repeated checks keep answering true); and with the force toggle off a
backfilled identifier is skipped outright while with the toggle on the
check is bypassed and the identifier is always fetched again. -/
theorem claim_C5 :
    (∀ (st : RunState) (eid : Int), already_backfilled st eid = true ↔
      ((∃ p ∈ st.eventFiles, p.1 = eid) ∧ (∃ p ∈ st.statsFiles, p.1 = eid))) ∧
    (∀ (st : RunState) (eid : Int), (∀ p ∈ st.eventFiles, p.1 ≠ eid) →
      already_backfilled st eid = false) ∧
    (∀ env force st idx eid st', processOne env force st idx eid = Sum.inl st' →
      st'.written ≠ st.written → already_backfilled st' eid = true) ∧
    (∀ env force st idx eid st' e2, processOne env force st idx eid = Sum.inl st' →
      already_backfilled st e2 = true → already_backfilled st' e2 = true) ∧
    (∀ env st idx eid, already_backfilled st eid = true →
      processOne env false st idx eid
        = Sum.inl { st with skipped_backfilled := st.skipped_backfilled + 1 }) ∧
    (∀ env st idx eid,
      Action.fetchEvent eid ∈ (stepState (processOne env true st idx eid)).trace) := by
  refine ⟨?_, ?_, ?_, ?_, processOne_skip, processOne_force_fetches⟩
  · intro st eid
    unfold already_backfilled
    rw [Bool.and_eq_true, List.any_eq_true, List.any_eq_true]
    simp
  · intro st eid h
    cases hb : already_backfilled st eid with
    | false => rfl
    | true =>
      unfold already_backfilled at hb
      rw [Bool.and_eq_true, List.any_eq_true] at hb
      obtain ⟨⟨p, hp, hpe⟩, _⟩ := hb
      exact absurd (by simpa using hpe) (h p hp)
  · intro env force st idx eid st' h hw
    rcases processOne_emit_or_frame env force st idx eid st' h with hfr | hem
    · exact absurd hfr.2.2.2 hw
    · exact hem.choose_spec.choose_spec.2.2.2.2.2.2.2.1
  · intro env force st idx eid st' e2 h hb
    obtain ⟨_, _, _, he, hs⟩ := processOne_inl_frame env force st idx eid st' h
    exact already_backfilled_mono st st' e2 he hs hb

/-- C5 witness: the parts of the claim applied at concrete states. -/
theorem claim_C5_witness :
    already_backfilled
      { df := dfTwoIds, csvOnDisk := dfTwoIds, eventFiles := [(3, 5)], statsFiles := [],
        written := 0, flipped := 0, skipped_backfilled := 0, finished_seen := 0,
        now := 0, trace := [] } 1 = false ∧
    already_backfilled (stepState (processOne envAllOk false (initState dfTwoIds [] [] 9) 0 1)) 1
      = true ∧
    processOne envAllOk false
        { initState dfTwoIds [] [] 9 with eventFiles := [(1, 4)], statsFiles := [(1, 4)] } 0 1
      = Sum.inl { initState dfTwoIds [] [] 9 with
                  eventFiles := [(1, 4)], statsFiles := [(1, 4)],
                  skipped_backfilled := 1 } := by
  refine ⟨claim_C5.2.1 _ 1 (by decide), ?_, ?_⟩
  · refine claim_C5.2.2.1 envAllOk false (initState dfTwoIds [] [] 9) 0 1 _ rfl (by decide)
  · exact claim_C5.2.2.2.2.1 envAllOk
      { initState dfTwoIds [] [] 9 with eventFiles := [(1, 4)], statsFiles := [(1, 4)] }
      0 1 (by decide)

/-- C6: the statistics fetch for an identifier happens only after the
event fetch succeeded and its status code equalled the finished sentinel
(a stats-fetch action newly present in the trace implies both guards
held); and whenever the event fetch yields nothing, the status is not the
sentinel, the statistics fetch yields nothing, or the statistics payload
is unparseable, the step emits no file and leaves every registry row —
in particular the identifier's pending flag — unchanged. -/
theorem claim_C6 :
    (∀ env force st idx eid eid2,
      Action.fetchStats eid2 ∉ st.trace →
      Action.fetchStats eid2 ∈ (stepState (processOne env force st idx eid)).trace →
      eid2 = eid ∧ ∃ ev, env.fetchEventJson eid = some ev ∧ statusIsFinished ev = true) ∧
    (∀ env force st idx eid st',
      processOne env force st idx eid = Sum.inl st' →
      (env.fetchEventJson eid = none ∨
       (∃ ev, env.fetchEventJson eid = some ev ∧ statusIsFinished ev = false) ∨
       env.fetchStatsJson eid = none ∨
       (∃ sj, env.fetchStatsJson eid = some sj ∧ parse_stats_min sj eid = none)) →
      st'.eventFiles = st.eventFiles ∧ st'.statsFiles = st.statsFiles ∧
      st'.df = st.df) := by
  refine ⟨processOne_newStats, ?_⟩
  intro env force st idx eid st' h hfail
  rcases processOne_emit_or_frame env force st idx eid st' h with hfr | hem
  · exact ⟨hfr.2.1, hfr.2.2.1, hfr.1⟩
  · obtain ⟨ev, sj, hev, hfin, hsj, hpe, hps, _⟩ := hem
    rcases hfail with h1 | ⟨ev2, h2, h2f⟩ | h3 | ⟨sj2, h4, h4p⟩
    · rw [hev] at h1; cases h1
    · rw [hev] at h2
      injection h2 with h2e
      rw [← h2e] at h2f
      rw [h2f] at hfin
      cases hfin
    · rw [hsj] at h3; cases h3
    · rw [hsj] at h4
      injection h4 with h4e
      rw [← h4e] at h4p
      rw [h4p] at hps
      cases hps

/-- C6 witness: the two parts applied at a concrete environment and
state. -/
theorem claim_C6_witness :
    (1 = (1 : Int) ∧ ∃ ev, envAllOk.fetchEventJson 1 = some ev ∧ statusIsFinished ev = true) ∧
    ((stepState (processOne { envAllOk with fetchEventJson := fun _ => none } false
        (initState dfTwoIds [] [] 9) 0 1)).eventFiles
      = (initState dfTwoIds [] [] 9).eventFiles ∧
     (stepState (processOne { envAllOk with fetchEventJson := fun _ => none } false
        (initState dfTwoIds [] [] 9) 0 1)).statsFiles
      = (initState dfTwoIds [] [] 9).statsFiles ∧
     (stepState (processOne { envAllOk with fetchEventJson := fun _ => none } false
        (initState dfTwoIds [] [] 9) 0 1)).df
      = (initState dfTwoIds [] [] 9).df) := by
  refine ⟨?_, ?_⟩
  · exact claim_C6.1 envAllOk false (initState dfTwoIds [] [] 9) 0 1 1
      (by decide) (by decide)
  · exact claim_C6.2 { envAllOk with fetchEventJson := fun _ => none } false
      (initState dfTwoIds [] [] 9) 0 1 _ rfl (.inl rfl)

/-- C8: when the statistics container parses, `parse_stats_min` always
returns a structurally valid record carrying the given identifier; in
particular when `expectedGoals` is absent from every group both xG fields
are null but the record is still produced; it returns none when the
container navigation fails; and metric values are coerced by `_to_float`,
which passes numbers through and parses strings after removing the
percent sign. -/
theorem claim_C8 :
    (∀ (sj : JVal) (eid : Int) (gl : List JVal), statsGroups sj = some gl →
      gl.all groupHasNoXg = true → parse_stats_min sj eid = some ⟨eid, none, none⟩) ∧
    (∀ (sj : JVal) (eid : Int), statsGroups sj = none → parse_stats_min sj eid = none) ∧
    (∀ (sj : JVal) (eid : Int) (gl : List JVal), statsGroups sj = some gl →
      gl.all groupScannable = true →
      ∃ r, parse_stats_min sj eid = some r ∧ r.event_id = eid) ∧
    (∀ q : ℚ, to_float (.jnum q) = some q) ∧
    (∀ s : String, to_float (.jstr s) = pyFloatOfString (pyStrip (removePercent s))) ∧
    to_float (.jstr "55%") = some 55 := by
  refine ⟨?_, ?_, ?_, fun q => rfl, fun s => rfl, rfl⟩
  · intro sj eid gl hg hall
    rw [parse_stats_min_eq, hg]
    show (scanGroups gl (none, none)).map
        (fun pr => StatsRecord.mk eid pr.1 pr.2) = some ⟨eid, none, none⟩
    rw [scanGroups_no_match gl hall]
    rfl
  · intro sj eid hg
    rw [parse_stats_min_eq, hg]
    rfl
  · intro sj eid gl hg hall
    obtain ⟨r, hr⟩ := scanGroups_isSome gl (none, none) hall
    refine ⟨⟨eid, r.1, r.2⟩, ?_, rfl⟩
    rw [parse_stats_min_eq, hg]
    show (scanGroups gl (none, none)).map
        (fun pr => StatsRecord.mk eid pr.1 pr.2) = some ⟨eid, r.1, r.2⟩
    rw [hr]
    rfl

/-- C8 witness: the parts applied to concrete payloads. -/
theorem claim_C8_witness :
    parse_stats_min emptyStatsJson 5 = some ⟨5, none, none⟩ ∧
    parse_stats_min (.jstr "oops") 5 = none ∧
    (∃ r, parse_stats_min emptyStatsJson 7 = some r ∧ r.event_id = 7) :=
  ⟨claim_C8.1 emptyStatsJson 5 [] rfl rfl,
   claim_C8.2.1 (.jstr "oops") 5 rfl,
   claim_C8.2.2.1 emptyStatsJson 7 [] rfl rfl⟩

/-- C1 (counterexample): the claim says an `EmitWriteFailure` is surfaced
for that identifier only and the run continues with subsequent
identifiers.  With two pending identifiers 1 and 2 and a write failure on
identifier 1's event file, the run aborts: identifier 2 is never even
fetched.  (The part of the claim about the flag holds: row 1, which maps
to the untouched identifier 2, and row 0 both stay pending.) -/
theorem claim_C1_counterexample :
    main envFail1 false (some dfTwoIds) [] [] 77
      = .aborted ⟨0, 1, false⟩
          (outcomeState (main envFail1 false (some dfTwoIds) [] [] 77)) ∧
    Action.fetchEvent 2 ∉ (outcomeState (main envFail1 false (some dfTwoIds) [] [] 77)).trace ∧
    getCell (outcomeState (main envFail1 false (some dfTwoIds) [] [] 77)).df 1
      "is_future_fixture" = some (.pint 1) :=
  ⟨rfl, by decide, rfl⟩

/-- C1 (amended): if writing either emitted file fails, the exception
propagates and the run aborts at that identifier: no `persist` is ever
logged, the registry file on disk is untouched, the failing identifier's
row keeps pending = 1 in memory, and the last trace entry shows
processing stopped inside that identifier's emission (so no subsequent
identifier was processed). -/
theorem claim_C1_amended (env : Env) (force : Bool) (raw : DataFrame)
    (fsEvent fsStats : List (Int × Nat)) (t0 : Nat) (e : EmitFailure) (st : RunState)
    (h : main env force (some raw) fsEvent fsStats t0 = .aborted e st) :
    Action.persist ∉ st.trace ∧
    st.csvOnDisk = raw ∧
    getCell st.df e.rowIdx "is_future_fixture" = some (.pint 1) ∧
    st.trace.getLast?
      = some (if e.isStatsFile then Action.emitEvent e.eid else Action.fetchStats e.eid) := by
  have h1 := main_aborted_elim env force raw fsEvent fsStats t0 e st h
  obtain ⟨hc, ⟨d, ht, hp⟩, hcell, hlast, _⟩ :=
    runLoop_inr_spec env force (idxAndEids (loadNormalize raw))
      (initState raw fsEvent fsStats t0) e st h1
      (idxAndEids_fst_nodup _) (initState_pairs_flagged raw fsEvent fsStats t0)
  refine ⟨?_, hc, hcell, hlast⟩
  rw [ht]
  intro hmem
  rcases List.mem_append.mp hmem with hmem1 | hmem2
  · simp [initState] at hmem1
  · exact hp hmem2

/-- C1 witness: the amended theorem applied to the concrete aborted
run. -/
theorem claim_C1_amended_witness :
    Action.persist ∉ (outcomeState (main envFail1 false (some dfTwoIds) [] [] 77)).trace ∧
    (outcomeState (main envFail1 false (some dfTwoIds) [] [] 77)).csvOnDisk = dfTwoIds ∧
    getCell (outcomeState (main envFail1 false (some dfTwoIds) [] [] 77)).df 0
      "is_future_fixture" = some (.pint 1) ∧
    (outcomeState (main envFail1 false (some dfTwoIds) [] [] 77)).trace.getLast?
      = some (Action.fetchStats 1) :=
  claim_C1_amended envFail1 false dfTwoIds [] [] 77 ⟨0, 1, false⟩
    (outcomeState (main envFail1 false (some dfTwoIds) [] [] 77)) rfl

/-- C2 (counterexample): the claim says every row mapping to a
successfully emitted identifier is flipped, including duplicates.  With
two pending rows both carrying identifier 1 and a fully successful
environment, the run emits for the first row and flips it, but the second
row is then seen as already backfilled (its files now exist), gets
skipped, and keeps pending = 1. -/
theorem claim_C2_counterexample :
    main envAllOk false (some dfDupIds) [] [] 77
      = .done (outcomeState (main envAllOk false (some dfDupIds) [] [] 77)) ∧
    Action.emitStats 1 ∈ (outcomeState (main envAllOk false (some dfDupIds) [] [] 77)).trace ∧
    getCell (outcomeState (main envAllOk false (some dfDupIds) [] [] 77)).df 0
      "is_future_fixture" = some (.pint 0) ∧
    getCell (outcomeState (main envAllOk false (some dfDupIds) [] [] 77)).df 1
      "is_future_fixture" = some (.pint 1) ∧
    (outcomeState (main envAllOk false (some dfDupIds) [] [] 77)).skipped_backfilled = 1 :=
  ⟨rfl, by decide, rfl, rfl, rfl⟩

/-- C2 (amended): upon successful emission for an identifier, exactly the
row being processed is flipped to 0 (if it carried 1): a step never
touches any other row's cells; and the emission makes the identifier
backfilled, so any later row carrying the same identifier is skipped
outright by the dedup guard (force off) with no registry change. -/
theorem claim_C2_amended :
    (∀ env force st idx eid st', processOne env force st idx eid = Sum.inl st' →
      st'.written ≠ st.written →
      (getCell st.df idx "is_future_fixture" = some (.pint 1) →
        getCell st'.df idx "is_future_fixture" = some (.pint 0)) ∧
      already_backfilled st' eid = true) ∧
    (∀ env force st idx eid st', processOne env force st idx eid = Sum.inl st' →
      ∀ j c, j ≠ idx → getCell st'.df j c = getCell st.df j c) ∧
    (∀ env st idx eid, already_backfilled st eid = true →
      processOne env false st idx eid
        = Sum.inl { st with skipped_backfilled := st.skipped_backfilled + 1 }) := by
  refine ⟨?_, ?_, processOne_skip⟩
  · intro env force st idx eid st' h hw
    rcases processOne_emit_or_frame env force st idx eid st' h with hfr | hem
    · exact absurd hfr.2.2.2 hw
    · obtain ⟨ev, sj, _, _, _, _, _, _, _, hbf, _, hflip⟩ := hem
      exact ⟨hflip, hbf⟩
  · intro env force st idx eid st' h
    exact (processOne_inl_frame env force st idx eid st' h).2.1

/-- C2 witness: the amended theorem applied to a concrete emitting step
on the duplicate-identifier registry. -/
theorem claim_C2_amended_witness :
    ((getCell (initState dfDupIds [] [] 9).df 0 "is_future_fixture" = some (.pint 1) →
      getCell (stepState (processOne envAllOk false (initState dfDupIds [] [] 9) 0 1)).df 0
        "is_future_fixture" = some (.pint 0)) ∧
     already_backfilled (stepState (processOne envAllOk false (initState dfDupIds [] [] 9) 0 1)) 1
       = true) ∧
    getCell (stepState (processOne envAllOk false (initState dfDupIds [] [] 9) 0 1)).df 1
      "is_future_fixture" = getCell (initState dfDupIds [] [] 9).df 1 "is_future_fixture" :=
  ⟨claim_C2_amended.1 envAllOk false (initState dfDupIds [] [] 9) 0 1
      (stepState (processOne envAllOk false (initState dfDupIds [] [] 9) 0 1)) rfl (by decide),
   claim_C2_amended.2.1 envAllOk false (initState dfDupIds [] [] 9) 0 1
      (stepState (processOne envAllOk false (initState dfDupIds [] [] 9) 0 1)) rfl 1
      "is_future_fixture" (by decide)⟩

/-- C3 (counterexample): the claim says every termination path attempts
to persist the registry, only an abrupt kill skipping it.  With
identifier 1 succeeding (its row is flipped in memory) and identifier 2's
event-file write raising, the run terminates through the uncaught
exception: a flip happened, yet no registry write is attempted — the file
on disk still holds the original table while the in-memory table
differs. -/
theorem claim_C3_counterexample :
    main envFail2 false (some dfTwoIds) [] [] 77
      = .aborted ⟨1, 2, false⟩
          (outcomeState (main envFail2 false (some dfTwoIds) [] [] 77)) ∧
    0 < (outcomeState (main envFail2 false (some dfTwoIds) [] [] 77)).flipped ∧
    Action.persist ∉ (outcomeState (main envFail2 false (some dfTwoIds) [] [] 77)).trace ∧
    (outcomeState (main envFail2 false (some dfTwoIds) [] [] 77)).csvOnDisk = dfTwoIds ∧
    (outcomeState (main envFail2 false (some dfTwoIds) [] [] 77)).df ≠ dfTwoIds :=
  ⟨rfl, by decide, by decide, rfl, by decide⟩

/-- C3 (amended): persistence of registry changes is attempted only when
the processing loop completes without an uncaught exception: on an
aborted run no registry write happens and the file on disk is untouched
(in-memory flips are lost); on normal completion the write is attempted
exactly when at least one row was flipped. -/
theorem claim_C3_amended (env : Env) (force : Bool) (raw : DataFrame)
    (fsEvent fsStats : List (Int × Nat)) (t0 : Nat) :
    (∀ e st, main env force (some raw) fsEvent fsStats t0 = .aborted e st →
      Action.persist ∉ st.trace ∧ st.csvOnDisk = raw) ∧
    (∀ st, main env force (some raw) fsEvent fsStats t0 = .done st →
      (Action.persist ∈ st.trace ↔ 0 < st.flipped)) := by
  constructor
  · intro e st h
    have h1 := main_aborted_elim env force raw fsEvent fsStats t0 e st h
    obtain ⟨hc, ⟨d, ht, hp⟩, _, _, _⟩ :=
      runLoop_inr_spec env force (idxAndEids (loadNormalize raw))
        (initState raw fsEvent fsStats t0) e st h1
        (idxAndEids_fst_nodup _) (initState_pairs_flagged raw fsEvent fsStats t0)
    refine ⟨?_, hc⟩
    rw [ht]
    intro hmem
    rcases List.mem_append.mp hmem with hmem1 | hmem2
    · simp [initState] at hmem1
    · exact hp hmem2
  · intro st h
    obtain ⟨st1, h1, hcase⟩ := main_done_elim env force raw fsEvent fsStats t0 st h
    obtain ⟨hc1, ⟨d, ht, hp⟩, _, _⟩ := runLoop_inl_frame env force _ _ _ h1
    rcases hcase with ⟨hfl, rfl⟩ | ⟨hfl, rfl⟩
    · simp [hfl]
    · constructor
      · intro hmem
        rw [ht] at hmem
        rcases List.mem_append.mp hmem with hmem1 | hmem2
        · simp [initState] at hmem1
        · exact absurd hmem2 hp
      · intro hlt
        omega

/-- C3 witness: the amended theorem applied to the concrete aborted run
and to a concrete normally completed run. -/
theorem claim_C3_amended_witness :
    (Action.persist ∉ (outcomeState (main envFail2 false (some dfTwoIds) [] [] 77)).trace ∧
     (outcomeState (main envFail2 false (some dfTwoIds) [] [] 77)).csvOnDisk = dfTwoIds) ∧
    (Action.persist ∈ (outcomeState (main envAllOk false (some dfTwoIds) [] [] 77)).trace ↔
     0 < (outcomeState (main envAllOk false (some dfTwoIds) [] [] 77)).flipped) :=
  ⟨(claim_C3_amended envFail2 false dfTwoIds [] [] 77).1 ⟨1, 2, false⟩
      (outcomeState (main envFail2 false (some dfTwoIds) [] [] 77)) rfl,
   (claim_C3_amended envAllOk false dfTwoIds [] [] 77).2
      (outcomeState (main envAllOk false (some dfTwoIds) [] [] 77)) rfl⟩

/-- C4: on a normally completed run, the registry path is written (the
single `persist` at the end) exactly when at least one row's flag was
flipped this run; with no flip there is no write and the file on disk is
the registry exactly as loaded; with a flip the file reflects the final
in-memory table. -/
theorem claim_C4 (env : Env) (force : Bool) (raw : DataFrame)
    (fsEvent fsStats : List (Int × Nat)) (t0 : Nat) (st : RunState)
    (h : main env force (some raw) fsEvent fsStats t0 = .done st) :
    (Action.persist ∈ st.trace ↔ 0 < st.flipped) ∧
    (st.flipped = 0 → Action.persist ∉ st.trace ∧ st.csvOnDisk = raw) ∧
    (0 < st.flipped → st.csvOnDisk = st.df) := by
  obtain ⟨st1, h1, hcase⟩ := main_done_elim env force raw fsEvent fsStats t0 st h
  obtain ⟨hc1, ⟨d, ht, hp⟩, _, _⟩ := runLoop_inl_frame env force _ _ _ h1
  rcases hcase with ⟨hfl, rfl⟩ | ⟨hfl, rfl⟩
  · refine ⟨by simp [hfl], fun h0 => ?_, fun _ => by simp⟩
    exfalso
    simp only [logA_flipped] at h0
    omega
  · have hnotmem : Action.persist ∉ st.trace := by
      rw [ht]
      intro hmem
      rcases List.mem_append.mp hmem with hmem1 | hmem2
      · simp [initState] at hmem1
      · exact hp hmem2
    refine ⟨⟨fun hmem => absurd hmem hnotmem, fun hlt => by omega⟩,
      fun _ => ⟨hnotmem, hc1⟩, fun hlt => by omega⟩

/-- C4 witness: the theorem applied to a concrete completed run (both
rows emitted and flipped, registry rewritten). -/
theorem claim_C4_witness :
    (Action.persist ∈ (outcomeState (main envAllOk false (some dfTwoIds) [] [] 77)).trace ↔
      0 < (outcomeState (main envAllOk false (some dfTwoIds) [] [] 77)).flipped) ∧
    ((outcomeState (main envAllOk false (some dfTwoIds) [] [] 77)).flipped = 0 →
      Action.persist ∉ (outcomeState (main envAllOk false (some dfTwoIds) [] [] 77)).trace ∧
      (outcomeState (main envAllOk false (some dfTwoIds) [] [] 77)).csvOnDisk = dfTwoIds) ∧
    (0 < (outcomeState (main envAllOk false (some dfTwoIds) [] [] 77)).flipped →
      (outcomeState (main envAllOk false (some dfTwoIds) [] [] 77)).csvOnDisk
        = (outcomeState (main envAllOk false (some dfTwoIds) [] [] 77)).df) :=
  claim_C4 envAllOk false dfTwoIds [] [] 77
    (outcomeState (main envAllOk false (some dfTwoIds) [] [] 77)) rfl

/-- A registry with one pending row from which no identifier can be
extracted. -/
def dfNoIds : DataFrame :=
  { cols := ["x", "is_future_fixture"], rows := [[.pstr "no link here", .pstr "1"]] }

/-- C10: when at least one row is flagged pending but identifier
extraction fails on every such row, the run raises the `ValueError` and
terminates before any polling or emission — the outcome is `noEventIds`
whatever the environment does, so no fetch can have happened; when at
least one identifier is extracted the error is not raised (rows with a
missing identifier are merely counted and skipped). -/
theorem main_some_eq (env : Env) (force : Bool) (raw : DataFrame)
    (fsEvent fsStats : List (Int × Nat)) (t0 : Nat) :
    main env force (some raw) fsEvent fsStats t0
      = if (!raw.cols.contains "is_future_fixture") = true then MainOutcome.schemaInvalid
        else if futureIdx (loadNormalize raw) = [] then MainOutcome.nothingToDo
        else if idxAndEids (loadNormalize raw) = [] then MainOutcome.noEventIds
        else
          match runLoop env force (idxAndEids (loadNormalize raw))
              (initState raw fsEvent fsStats t0) with
          | Sum.inr (e, st) => MainOutcome.aborted e st
          | Sum.inl st =>
            if 0 < st.flipped then
              MainOutcome.done (logA { st with csvOnDisk := st.df } Action.persist)
            else MainOutcome.done st := rfl

theorem claim_C10 (raw : DataFrame) (fsEvent fsStats : List (Int × Nat)) (t0 : Nat)
    (hcol : raw.cols.contains "is_future_fixture" = true)
    (hfut : futureIdx (loadNormalize raw) ≠ []) :
    (idxAndEids (loadNormalize raw) = [] →
      ∀ env force, main env force (some raw) fsEvent fsStats t0 = .noEventIds) ∧
    (idxAndEids (loadNormalize raw) ≠ [] →
      ∀ env force, main env force (some raw) fsEvent fsStats t0 ≠ .noEventIds) := by
  constructor
  · intro hemp env force
    rw [main_some_eq, if_neg (by rw [hcol]; simp), if_neg (by simp [hfut]), if_pos hemp]
  · intro hne env force
    rw [main_some_eq, if_neg (by rw [hcol]; simp), if_neg (by simp [hfut]), if_neg hne]
    cases runLoop env force (idxAndEids (loadNormalize raw))
        (initState raw fsEvent fsStats t0) with
    | inl st =>
      show ¬(if 0 < st.flipped then
          MainOutcome.done (logA { st with csvOnDisk := st.df } Action.persist)
        else MainOutcome.done st) = MainOutcome.noEventIds
      split <;> simp
    | inr p =>
      obtain ⟨e, st⟩ := p
      show ¬MainOutcome.aborted e st = MainOutcome.noEventIds
      simp

/-- C10 witness: the theorem applied to a registry whose single pending
row has no extractable identifier, and to one with extractable
identifiers. -/
theorem claim_C10_witness :
    main envAllOk false (some dfNoIds) [] [] 3 = .noEventIds ∧
    main envAllOk false (some dfTwoIds) [] [] 3 ≠ .noEventIds :=
  ⟨(claim_C10 dfNoIds [] [] 3 rfl (by decide)).1 (by decide) envAllOk false,
   (claim_C10 dfTwoIds [] [] 3 rfl (by decide)).2 (by decide) envAllOk false⟩

/-- C7 witness: the per-value characterisation applied at concrete
cells. -/
theorem claim_C7_witness :
    (normalize_flag (.pstr " True ") = 1 ↔
      truthyStrings.contains (pyLower (pyStrip (pyStr (.pstr " True ")))) = true) ∧
    (normalize_flag (.pbool true) = if true then 1 else 0) ∧
    (normalize_flag (.pfloat "1.0") = 1 ∨ normalize_flag (.pfloat "1.0") = 0) :=
  ⟨claim_C7.2.2.2.1 (.pstr " True "), claim_C7.2.2.2.2.1 true,
   claim_C7.2.2.1 (.pfloat "1.0")⟩
end Listener
